import Mathlib

/-!
Verification of the payroll/financial aggregation policy of the tea-plantation
dashboard.

The embedding mirrors the two components that implement the policy:

* `daily-plucking-manager.tsx` — the form submit handler (`handleSubmit`),
  the live preview (`salaryPreview`), the per-day stats (`stats`), and the
  row projection done by `fetchRecords`.
* `section-cards.tsx` — the monthly financial rollup (`fetchStats`):
  revenue, expenses, profit, the daily harvest, and the four percentage-change
  figures.

Monetary and quantity values are modelled as rationals (`ℚ`).  A numeric form
field is an `Option ℚ`: `some x` models a string that `parseFloat` parses to
`x` (any sign), `none` models an empty or unparseable string (`parseFloat`
returns `NaN`).  The JavaScript coercion `parseFloat(s) || 0` maps `NaN` to
`0` and `0` to `0`, so it is `Option.getD 0` on this model.
-/

/-- One extra-work line item of a plucking form (`ExtraWork` in the source). -/
structure ExtraWork where
  description : String
  amount : ℚ
deriving DecidableEq

/-- The daily-plucking form state (`formData` plus `extraWorkItems` in the
source); numeric fields keep the result of `parseFloat` on the raw string. -/
structure FormData where
  worker_id : String
  kg_plucked : Option ℚ
  rate_per_kg : Option ℚ
  is_advance : Bool
  advance_amount : Option ℚ
  notes : String
deriving DecidableEq

/-- `parseFloat(s) || 0`: an unparseable or empty field is coerced to `0`. -/
def numOr0 (o : Option ℚ) : ℚ := o.getD 0

/-- `extraWorkItems.reduce((sum, item) => sum + item.amount, 0)`. -/
def extraWorkTotal (items : List ExtraWork) : ℚ :=
  items.foldl (fun sum item => sum + item.amount) 0

/-- The row written to the `daily_plucking` table (`recordData` in
`handleSubmit`). -/
structure RecordData where
  worker_id : String
  date : String
  kg_plucked : ℚ
  rate_per_kg : ℚ
  wage_earned : ℚ
  total_income : ℚ
  extra_work_payment : ℚ
  is_advance : Bool
deriving DecidableEq

/-- The submit handler of the daily-plucking form
(`daily-plucking-manager.tsx`, `handleSubmit`): the advance branch stores
`kg_plucked = 0`, `rate_per_kg = 0` and `wage_earned = -Math.abs(parseFloat
(advance_amount) || 0)`; the plucking branch stores
`wage_earned = kg * rate + extra_work_payment` with both factors coerced by
`parseFloat(·) || 0`.  The handler never rejects: it always produces a row. -/
def handleSubmit (selectedDate : String) (formData : FormData)
    (extraWorkItems : List ExtraWork) : RecordData :=
  let extra_work_payment := extraWorkTotal extraWorkItems
  if formData.is_advance then
    let daily_salary := -|numOr0 formData.advance_amount|
    { worker_id := formData.worker_id
      date := selectedDate
      kg_plucked := 0
      rate_per_kg := 0
      wage_earned := daily_salary
      total_income := daily_salary
      extra_work_payment := extra_work_payment
      is_advance := true }
  else
    let kg_plucked := numOr0 formData.kg_plucked
    let rate_per_kg := numOr0 formData.rate_per_kg
    let daily_salary := kg_plucked * rate_per_kg + extra_work_payment
    { worker_id := formData.worker_id
      date := selectedDate
      kg_plucked := kg_plucked
      rate_per_kg := rate_per_kg
      wage_earned := daily_salary
      total_income := daily_salary
      extra_work_payment := extra_work_payment
      is_advance := false }

/-- The live preview (`salaryPreview` in the source): the same arithmetic as
`handleSubmit`, without building a row. -/
def salaryPreview (formData : FormData) (extraWorkItems : List ExtraWork) : ℚ :=
  if formData.is_advance then
    -(numOr0 formData.advance_amount)
  else
    let kg := numOr0 formData.kg_plucked
    let rate := numOr0 formData.rate_per_kg
    let extraWork := extraWorkTotal extraWorkItems
    kg * rate + extraWork

/-- The in-memory record built by `fetchRecords` from a stored row: the
fields the aggregations read (`daily_salary` is the stored `wage_earned`). -/
structure PluckingRecord where
  kg_plucked : ℚ
  rate_per_kg : ℚ
  daily_salary : ℚ
  is_advance : Bool
deriving DecidableEq

/-- The projection `fetchRecords` applies to a stored row. -/
def toPluckingRecord (r : RecordData) : PluckingRecord :=
  { kg_plucked := r.kg_plucked
    rate_per_kg := r.rate_per_kg
    daily_salary := r.wage_earned
    is_advance := r.is_advance }

/-- `stats.totalKg`: `records.filter(r => !r.is_advance).reduce((sum, r) =>
sum + r.kg_plucked, 0)`. -/
def totalKg (records : List PluckingRecord) : ℚ :=
  (records.filter (fun r => !r.is_advance)).foldl (fun sum r => sum + r.kg_plucked) 0

/-- `stats.totalPaid`: `records.reduce((sum, r) => sum +
Math.abs(r.daily_salary), 0)`. -/
def totalPaid (records : List PluckingRecord) : ℚ :=
  records.foldl (fun sum r => sum + |r.daily_salary|) 0

/-! ## Dashboard rollup (`section-cards.tsx`, `fetchStats`) -/

/-- A `tea_sales` row as selected by the dashboard: `total_income`
(`null` guarded by `|| 0` in the source). -/
structure SaleRow where
  total_income : Option ℚ
deriving DecidableEq

/-- A `daily_plucking` row as selected for the expense rollup:
`kg_plucked, rate_per_kg, is_advance`. -/
structure PaymentRow where
  kg_plucked : Option ℚ
  rate_per_kg : Option ℚ
  is_advance : Bool
deriving DecidableEq

/-- A `daily_plucking` row as selected for the harvest figures:
`kg_plucked, is_advance`. -/
structure HarvestRow where
  kg_plucked : Option ℚ
  is_advance : Bool
deriving DecidableEq

/-- Projection of a stored row onto the columns the expense rollup selects. -/
def toPaymentRow (r : RecordData) : PaymentRow :=
  { kg_plucked := some r.kg_plucked
    rate_per_kg := some r.rate_per_kg
    is_advance := r.is_advance }

/-- `sales.reduce((sum, s) => sum + (s.total_income || 0), 0)`. -/
def monthlyRevenueOf (sales : List SaleRow) : ℚ :=
  sales.foldl (fun sum s => sum + numOr0 s.total_income) 0

/-- The dashboard expense rollup (`section-cards.tsx`, lines 89–104): an
advance row contributes `Math.abs(kg_plucked || 0)`, any other row
contributes `(kg_plucked || 0) * (rate_per_kg || 0)`. -/
def monthlyExpensesOf (payments : List PaymentRow) : ℚ :=
  payments.foldl
    (fun sum p =>
      if p.is_advance then sum + |numOr0 p.kg_plucked|
      else sum + numOr0 p.kg_plucked * numOr0 p.rate_per_kg) 0

/-- The harvest figure: only non-advance rows, summing `kg_plucked || 0`. -/
def harvestOf (rows : List HarvestRow) : ℚ :=
  (rows.filter (fun d => !d.is_advance)).foldl (fun sum d => sum + numOr0 d.kg_plucked) 0

/-- The guard used by `revenueChange`, `expensesChange` and `harvestChange`:
`last > 0 ? ((current - last) / last) * 100 : 0`. -/
def changeGuard (current last : ℚ) : ℚ :=
  if last > 0 then ((current - last) / last) * 100 else 0

/-- The guard used by `profitChange`:
`last !== 0 ? ((current - last) / Math.abs(last)) * 100 : 0`. -/
def profitChangeGuard (current last : ℚ) : ℚ :=
  if last ≠ 0 then ((current - last) / |last|) * 100 else 0

/-- The aggregate figures `fetchStats` stores into component state. -/
structure DashboardStats where
  monthlyRevenue : ℚ
  revenueChange : ℚ
  monthlyExpenses : ℚ
  expensesChange : ℚ
  monthlyProfit : ℚ
  profitChange : ℚ
  todaysHarvest : ℚ
  harvestChange : ℚ
deriving DecidableEq

/-- `fetchStats` (`section-cards.tsx`): the pure computation applied to the
six row sets fetched for the current month, the previous month, today and
yesterday. -/
def fetchStats (currentSales lastSales : List SaleRow)
    (currentPayments lastPayments : List PaymentRow)
    (todaysData yesterdaysData : List HarvestRow) : DashboardStats :=
  let monthlyRevenue := monthlyRevenueOf currentSales
  let lastMonthRevenue := monthlyRevenueOf lastSales
  let revenueChange := changeGuard monthlyRevenue lastMonthRevenue
  let monthlyExpenses := monthlyExpensesOf currentPayments
  let lastMonthExpenses := monthlyExpensesOf lastPayments
  let expensesChange := changeGuard monthlyExpenses lastMonthExpenses
  let monthlyProfit := monthlyRevenue - monthlyExpenses
  let lastMonthProfit := lastMonthRevenue - lastMonthExpenses
  let profitChange := profitChangeGuard monthlyProfit lastMonthProfit
  let todaysHarvest := harvestOf todaysData
  let yesterdaysHarvest := harvestOf yesterdaysData
  let harvestChange := changeGuard todaysHarvest yesterdaysHarvest
  { monthlyRevenue := monthlyRevenue
    revenueChange := revenueChange
    monthlyExpenses := monthlyExpenses
    expensesChange := expensesChange
    monthlyProfit := monthlyProfit
    profitChange := profitChange
    todaysHarvest := todaysHarvest
    harvestChange := harvestChange }

/-! ## Spec-side definitions (for refinement comparison only)

These definitions follow the words of the spec, not the source; they exist so
refinement claims can compare the source computation against the formula the
spec states. -/

/-- Modelled from the spec: `total_earned` is the sum of `computed_amount`
(stored as `wage_earned`) over `Plucking` entries. -/
def specTotalEarned (rows : List RecordData) : ℚ :=
  ((rows.filter (fun r => !r.is_advance)).map (fun r => r.wage_earned)).sum

/-- Modelled from the spec: `total_advanced` is the sum of
`abs(computed_amount)` over `Advance` entries. -/
def specTotalAdvanced (rows : List RecordData) : ℚ :=
  ((rows.filter (fun r => r.is_advance)).map (fun r => |r.wage_earned|)).sum

/-- Modelled from the spec: `expenses = total_earned + sum(bonus amounts)
− total_advanced` (no bonus entity exists in the source, so bonus amounts
are passed as a bare list). -/
def specExpenses (rows : List RecordData) (bonusAmounts : List ℚ) : ℚ :=
  specTotalEarned rows + bonusAmounts.sum - specTotalAdvanced rows

/-- Modelled from the spec: a percentage change is `0` when the prior base
is zero and the relative difference `((current − last) / last) * 100`
otherwise. -/
def specChange (current last : ℚ) : ℚ :=
  if last = 0 then 0 else ((current - last) / last) * 100

/-! ## Bridging lemmas -/

/-- A left fold that adds `f a` at each step is the sum of the mapped list. -/
theorem foldl_add_eq_sum {α : Type} (f : α → ℚ) (l : List α) (init : ℚ) :
    l.foldl (fun sum a => sum + f a) init = init + (l.map f).sum := by
  induction l generalizing init with
  | nil => simp
  | cons a t ih => simp [ih, add_assoc]

theorem totalPaid_eq_sum (records : List PluckingRecord) :
    totalPaid records = (records.map (fun r => |r.daily_salary|)).sum := by
  simpa using foldl_add_eq_sum (fun r => |r.daily_salary|) records 0

theorem totalKg_eq_sum (records : List PluckingRecord) :
    totalKg records
      = ((records.filter (fun r => !r.is_advance)).map (fun r => r.kg_plucked)).sum := by
  simpa using
    foldl_add_eq_sum (fun r : PluckingRecord => r.kg_plucked)
      (records.filter (fun r => !r.is_advance)) 0

theorem monthlyRevenueOf_eq_sum (sales : List SaleRow) :
    monthlyRevenueOf sales = (sales.map (fun s => numOr0 s.total_income)).sum := by
  simpa using foldl_add_eq_sum (fun s : SaleRow => numOr0 s.total_income) sales 0

theorem monthlyExpensesOf_eq_sum (payments : List PaymentRow) :
    monthlyExpensesOf payments
      = (payments.map (fun p =>
          if p.is_advance then |numOr0 p.kg_plucked|
          else numOr0 p.kg_plucked * numOr0 p.rate_per_kg)).sum := by
  have h := foldl_add_eq_sum
    (fun p : PaymentRow =>
      if p.is_advance then |numOr0 p.kg_plucked|
      else numOr0 p.kg_plucked * numOr0 p.rate_per_kg) payments 0
  have hfun : (fun (sum : ℚ) (p : PaymentRow) =>
      if p.is_advance then sum + |numOr0 p.kg_plucked|
      else sum + numOr0 p.kg_plucked * numOr0 p.rate_per_kg)
      = (fun (sum : ℚ) (p : PaymentRow) => sum +
          if p.is_advance then |numOr0 p.kg_plucked|
          else numOr0 p.kg_plucked * numOr0 p.rate_per_kg) := by
    funext sum p
    by_cases hp : p.is_advance <;> simp [hp]
  rw [monthlyExpensesOf, hfun]
  simpa using h

theorem harvestOf_eq_sum (rows : List HarvestRow) :
    harvestOf rows
      = ((rows.filter (fun d => !d.is_advance)).map (fun d => numOr0 d.kg_plucked)).sum := by
  simpa using
    foldl_add_eq_sum (fun d : HarvestRow => numOr0 d.kg_plucked)
      (rows.filter (fun d => !d.is_advance)) 0

theorem extraWorkTotal_eq_sum (items : List ExtraWork) :
    extraWorkTotal items = (items.map (fun item => item.amount)).sum := by
  simpa using foldl_add_eq_sum (fun item : ExtraWork => item.amount) items 0

/-- Splitting the sum of a pointwise if-then-else over a list into the sums
over the two filtered sublists. -/
theorem sum_if_split {α : Type} (p : α → Bool) (g h : α → ℚ) (l : List α) :
    (l.map (fun a => if p a then g a else h a)).sum
      = ((l.filter (fun a => p a)).map g).sum
        + ((l.filter (fun a => !p a)).map h).sum := by
  induction l with
  | nil => simp
  | cons a t ih =>
      by_cases hp : p a
      · simp [hp, ih]; ring
      · simp [hp, ih]; ring

/-! ## Claim theorems -/

/-- C2: for every plucking submission whose quantity and rate parse to
non-negative values, the stored wage is `kg * rate` plus the sum of the
extra-work amounts, and exactly `kg * rate` when the extra-work list is
empty. -/
theorem plucking_wage_correct (selectedDate : String) (formData : FormData)
    (extraWorkItems : List ExtraWork) (kg rate : ℚ)
    (hadv : formData.is_advance = false)
    (hkg : formData.kg_plucked = some kg)
    (hrate : formData.rate_per_kg = some rate)
    (hkg0 : 0 ≤ kg) (hrate0 : 0 ≤ rate) :
    (handleSubmit selectedDate formData extraWorkItems).wage_earned
      = kg * rate + (extraWorkItems.map (fun item => item.amount)).sum
    ∧ (extraWorkItems = [] →
        (handleSubmit selectedDate formData extraWorkItems).wage_earned = kg * rate) := by
  constructor
  · simp [handleSubmit, hadv, hkg, hrate, numOr0, extraWorkTotal_eq_sum]
  · intro hempty
    subst hempty
    simp [handleSubmit, hadv, hkg, hrate, numOr0, extraWorkTotal]

/-- Witness for C2 at kg = 15.5, rate = 150, no extra work: wage 2325. -/
theorem plucking_wage_correct_witness :
    (handleSubmit "2025-01-01"
        { worker_id := "A", kg_plucked := some (31 / 2), rate_per_kg := some 150,
          is_advance := false, advance_amount := none, notes := "" }
        []).wage_earned = (31 / 2) * 150 :=
  (plucking_wage_correct "2025-01-01"
    { worker_id := "A", kg_plucked := some (31 / 2), rate_per_kg := some 150,
      is_advance := false, advance_amount := none, notes := "" }
    [] (31 / 2) 150 rfl rfl rfl (by norm_num) (by norm_num)).2 rfl

/-- C3: for every advance submission whose amount parses to a non-negative
value, the stored wage is the negated amount and the stored quantity and
rate are forced to zero, whatever quantity or rate values the form still
holds from a prior edit. -/
theorem advance_wage_correct (selectedDate : String) (formData : FormData)
    (extraWorkItems : List ExtraWork) (a : ℚ)
    (hadv : formData.is_advance = true)
    (ha : formData.advance_amount = some a) (ha0 : 0 ≤ a) :
    (handleSubmit selectedDate formData extraWorkItems).wage_earned = -a
    ∧ (handleSubmit selectedDate formData extraWorkItems).kg_plucked = 0
    ∧ (handleSubmit selectedDate formData extraWorkItems).rate_per_kg = 0 := by
  refine ⟨?_, ?_, ?_⟩ <;>
    simp [handleSubmit, hadv, ha, numOr0, abs_of_nonneg ha0]

/-- Witness for C3 at amount 2000, with stale plucking fields kg = 15.5 and
rate = 150 left over in the form. -/
theorem advance_wage_correct_witness :
    (handleSubmit "2025-01-01"
        { worker_id := "A", kg_plucked := some (31 / 2), rate_per_kg := some 150,
          is_advance := true, advance_amount := some 2000, notes := "" }
        []).wage_earned = -2000 :=
  (advance_wage_correct "2025-01-01"
    { worker_id := "A", kg_plucked := some (31 / 2), rate_per_kg := some 150,
      is_advance := true, advance_amount := some 2000, notes := "" }
    [] 2000 rfl rfl (by norm_num)).1

/-- C4 (failing input): the submit handler accepts a plucking form whose
quantity parses to -1 with rate 150 and stores wage -150; no validation
rejects the negative quantity before the wage is computed. -/
theorem negative_quantity_accepted :
    (handleSubmit "2025-01-01"
        { worker_id := "A", kg_plucked := some (-1), rate_per_kg := some 150,
          is_advance := false, advance_amount := none, notes := "" }
        []).wage_earned = -150
    ∧ (handleSubmit "2025-01-01"
        { worker_id := "A", kg_plucked := some (-1), rate_per_kg := some 150,
          is_advance := false, advance_amount := none, notes := "" }
        []).kg_plucked = -1 := by
  constructor <;> norm_num [handleSubmit, numOr0, extraWorkTotal]

/-- C5: the daily total-paid figure is the sum of the absolute stored wage
over all records of the day, advances included; on the scenario of the spec
(plucking 15.5 kg at 150, plucking 20 kg at 150 with a 500 weeding item,
advance 2000, each built by the submit handler) it equals 7825. -/
theorem totalPaid_abs_over_all_entries :
    (∀ records : List PluckingRecord,
        totalPaid records = (records.map (fun r => |r.daily_salary|)).sum)
    ∧ totalPaid
        [toPluckingRecord (handleSubmit "2025-01-01"
            { worker_id := "A", kg_plucked := some (31 / 2), rate_per_kg := some 150,
              is_advance := false, advance_amount := none, notes := "" } []),
         toPluckingRecord (handleSubmit "2025-01-01"
            { worker_id := "B", kg_plucked := some 20, rate_per_kg := some 150,
              is_advance := false, advance_amount := none, notes := "" }
            [{ description := "weeding", amount := 500 }]),
         toPluckingRecord (handleSubmit "2025-01-01"
            { worker_id := "A", kg_plucked := none, rate_per_kg := none,
              is_advance := true, advance_amount := some 2000, notes := "" } [])]
      = 7825 := by
  constructor
  · exact totalPaid_eq_sum
  · norm_num [totalPaid, toPluckingRecord, handleSubmit, numOr0, extraWorkTotal]

/-- C6: every aggregation is invariant under permutation of its input rows:
the daily stats (total kg, total paid), the monthly expense rollup, and the
monthly revenue and harvest sums. -/
theorem aggregation_perm_invariant :
    (∀ r1 r2 : List PluckingRecord, r1.Perm r2 →
        totalKg r1 = totalKg r2 ∧ totalPaid r1 = totalPaid r2)
    ∧ (∀ p1 p2 : List PaymentRow, p1.Perm p2 →
        monthlyExpensesOf p1 = monthlyExpensesOf p2)
    ∧ (∀ s1 s2 : List SaleRow, s1.Perm s2 →
        monthlyRevenueOf s1 = monthlyRevenueOf s2)
    ∧ (∀ d1 d2 : List HarvestRow, d1.Perm d2 →
        harvestOf d1 = harvestOf d2) := by
  refine ⟨fun r1 r2 h => ⟨?_, ?_⟩, fun p1 p2 h => ?_, fun s1 s2 h => ?_,
    fun d1 d2 h => ?_⟩
  · rw [totalKg_eq_sum, totalKg_eq_sum]
    exact ((h.filter _).map _).sum_eq
  · rw [totalPaid_eq_sum, totalPaid_eq_sum]
    exact (h.map _).sum_eq
  · rw [monthlyExpensesOf_eq_sum, monthlyExpensesOf_eq_sum]
    exact (h.map _).sum_eq
  · rw [monthlyRevenueOf_eq_sum, monthlyRevenueOf_eq_sum]
    exact (h.map _).sum_eq
  · rw [harvestOf_eq_sum, harvestOf_eq_sum]
    exact ((h.filter _).map _).sum_eq

/-- Witness for C6: swapping a plucking record and an advance record leaves
the daily total-paid figure unchanged. -/
theorem aggregation_perm_invariant_witness :
    totalPaid
        [{ kg_plucked := 20, rate_per_kg := 150, daily_salary := 3000, is_advance := false },
         { kg_plucked := 0, rate_per_kg := 0, daily_salary := -2000, is_advance := true }]
      = totalPaid
        [{ kg_plucked := 0, rate_per_kg := 0, daily_salary := -2000, is_advance := true },
         { kg_plucked := 20, rate_per_kg := 150, daily_salary := 3000, is_advance := false }] :=
  (aggregation_perm_invariant.1
    [{ kg_plucked := 20, rate_per_kg := 150, daily_salary := 3000, is_advance := false },
     { kg_plucked := 0, rate_per_kg := 0, daily_salary := -2000, is_advance := true }]
    [{ kg_plucked := 0, rate_per_kg := 0, daily_salary := -2000, is_advance := true },
     { kg_plucked := 20, rate_per_kg := 150, daily_salary := 3000, is_advance := false }]
    (List.Perm.swap _ _ [])).2

/-- C8: every advance row created by the submit handler stores
`kg_plucked = 0`, so appending it to any month of payment rows leaves the
dashboard expense rollup unchanged: the advance branch of the rollup reads
`abs(kg_plucked)`, which is 0 for such a row. -/
theorem advance_rows_add_zero_expense (selectedDate : String)
    (formData : FormData) (extraWorkItems : List ExtraWork)
    (rows : List PaymentRow) (hadv : formData.is_advance = true) :
    (handleSubmit selectedDate formData extraWorkItems).kg_plucked = 0
    ∧ monthlyExpensesOf
        (rows ++ [toPaymentRow (handleSubmit selectedDate formData extraWorkItems)])
      = monthlyExpensesOf rows := by
  constructor
  · simp [handleSubmit, hadv]
  · rw [monthlyExpensesOf_eq_sum, monthlyExpensesOf_eq_sum]
    simp [toPaymentRow, handleSubmit, hadv, numOr0]

/-- Witness for C8: an advance of 2000 appended to a month holding one
plucking row of 20 kg at 150 leaves the expense rollup at 3000. -/
theorem advance_rows_add_zero_expense_witness :
    monthlyExpensesOf
        ([{ kg_plucked := some 20, rate_per_kg := some 150, is_advance := false }]
          ++ [toPaymentRow (handleSubmit "2025-01-01"
                { worker_id := "A", kg_plucked := none, rate_per_kg := none,
                  is_advance := true, advance_amount := some 2000, notes := "" } [])])
      = monthlyExpensesOf
          [{ kg_plucked := some 20, rate_per_kg := some 150, is_advance := false }] :=
  (advance_rows_add_zero_expense "2025-01-01"
    { worker_id := "A", kg_plucked := none, rate_per_kg := none,
      is_advance := true, advance_amount := some 2000, notes := "" }
    [] [{ kg_plucked := some 20, rate_per_kg := some 150, is_advance := false }]
    rfl).2

/-- C9: whatever the advance-amount field parses to — a negative number, an
unparseable string, or nothing — the stored wage of an advance submission is
never positive: the handler stores the negated absolute value of the
coerced amount. -/
theorem advance_wage_nonpositive (selectedDate : String) (formData : FormData)
    (extraWorkItems : List ExtraWork) (hadv : formData.is_advance = true) :
    (handleSubmit selectedDate formData extraWorkItems).wage_earned ≤ 0 := by
  simp only [handleSubmit, hadv, if_true]
  exact neg_nonpos.mpr (abs_nonneg _)

/-- Witness for C9 at a field that parses to the negative value -5. -/
theorem advance_wage_nonpositive_witness :
    (handleSubmit "2025-01-01"
        { worker_id := "A", kg_plucked := none, rate_per_kg := none,
          is_advance := true, advance_amount := some (-5), notes := "" }
        []).wage_earned ≤ 0 :=
  advance_wage_nonpositive "2025-01-01"
    { worker_id := "A", kg_plucked := none, rate_per_kg := none,
      is_advance := true, advance_amount := some (-5), notes := "" }
    [] rfl

/-- C10: a plucking submission whose quantity field is empty or unparseable
is not rejected: the quantity is coerced to 0 and the stored wage is exactly
the sum of the extra-work amounts. -/
theorem malformed_numeric_coerced (selectedDate : String) (formData : FormData)
    (extraWorkItems : List ExtraWork)
    (hadv : formData.is_advance = false) (hkg : formData.kg_plucked = none) :
    (handleSubmit selectedDate formData extraWorkItems).kg_plucked = 0
    ∧ (handleSubmit selectedDate formData extraWorkItems).wage_earned
        = (extraWorkItems.map (fun item => item.amount)).sum := by
  constructor
  · simp [handleSubmit, hadv, hkg, numOr0]
  · simp [handleSubmit, hadv, hkg, numOr0, extraWorkTotal_eq_sum]

/-- Witness for C10: an unparseable quantity with a 500 weeding item stores
a wage of 500. -/
theorem malformed_numeric_coerced_witness :
    (handleSubmit "2025-01-01"
        { worker_id := "A", kg_plucked := none, rate_per_kg := some 150,
          is_advance := false, advance_amount := none, notes := "" }
        [{ description := "weeding", amount := 500 }]).wage_earned
      = ([{ description := "weeding", amount := 500 }].map
          (fun item : ExtraWork => item.amount)).sum :=
  (malformed_numeric_coerced "2025-01-01"
    { worker_id := "A", kg_plucked := none, rate_per_kg := some 150,
      is_advance := false, advance_amount := none, notes := "" }
    [{ description := "weeding", amount := 500 }] rfl rfl).2

/-- C1 (counterexample): on a month holding one plucking row of 20 kg at 150
with a 500 extra-work item (stored wage 3500) and one advance of 2000, both
built by the submit handler, the dashboard expense rollup yields 3000, while
the formula of the claim — earnings including extra work, plus bonuses,
minus advances — yields 3500 + 0 − 2000 = 1500. -/
theorem expenses_formula_counterexample :
    monthlyExpensesOf
        ([handleSubmit "2025-01-01"
            { worker_id := "B", kg_plucked := some 20, rate_per_kg := some 150,
              is_advance := false, advance_amount := none, notes := "" }
            [{ description := "weeding", amount := 500 }],
          handleSubmit "2025-01-01"
            { worker_id := "A", kg_plucked := none, rate_per_kg := none,
              is_advance := true, advance_amount := some 2000, notes := "" }
            []].map toPaymentRow)
      = 3000
    ∧ specExpenses
        [handleSubmit "2025-01-01"
            { worker_id := "B", kg_plucked := some 20, rate_per_kg := some 150,
              is_advance := false, advance_amount := none, notes := "" }
            [{ description := "weeding", amount := 500 }],
         handleSubmit "2025-01-01"
            { worker_id := "A", kg_plucked := none, rate_per_kg := none,
              is_advance := true, advance_amount := some 2000, notes := "" }
            []]
        []
      = 1500
    ∧ (3000 : ℚ) ≠ 1500 := by
  refine ⟨?_, ?_, by norm_num⟩
  · norm_num [monthlyExpensesOf, toPaymentRow, handleSubmit, numOr0, extraWorkTotal]
  · norm_num [specExpenses, specTotalEarned, specTotalAdvanced, handleSubmit,
      numOr0, extraWorkTotal]

/-- C1 (amended): the dashboard expense rollup over stored rows is the sum
of `kg_plucked * rate_per_kg` over non-advance rows plus the sum of
`abs(kg_plucked)` over advance rows — extra-work amounts are not included,
no bonus term exists, and advances are added as `abs(kg_plucked)` (0 for
rows created by the submit handler) rather than subtracted. -/
theorem monthlyExpenses_kg_times_rate (rows : List RecordData) :
    monthlyExpensesOf (rows.map toPaymentRow)
      = ((rows.filter (fun r => !r.is_advance)).map
          (fun r => r.kg_plucked * r.rate_per_kg)).sum
        + ((rows.filter (fun r => r.is_advance)).map (fun r => |r.kg_plucked|)).sum := by
  rw [monthlyExpensesOf_eq_sum, List.map_map]
  have hcomp : ((fun p : PaymentRow =>
        if p.is_advance then |numOr0 p.kg_plucked|
        else numOr0 p.kg_plucked * numOr0 p.rate_per_kg) ∘ toPaymentRow)
      = fun r : RecordData =>
          if r.is_advance then |r.kg_plucked| else r.kg_plucked * r.rate_per_kg := by
    funext r
    simp [toPaymentRow, numOr0]
  rw [hcomp,
    sum_if_split (fun r : RecordData => r.is_advance)
      (fun r => |r.kg_plucked|) (fun r => r.kg_plucked * r.rate_per_kg) rows]
  exact add_comm _ _

/-- C7 (counterexample): a stored row with a negative quantity — accepted by
the submit handler — makes the prior-month expense base -150, which is not
zero; the dashboard then reports an expense change of 0, while the relative
difference against that base ((0 − (−150)) / (−150)) · 100 is -100. -/
theorem change_guard_counterexample :
    monthlyExpensesOf
        [toPaymentRow (handleSubmit "2025-01-01"
            { worker_id := "A", kg_plucked := some (-1), rate_per_kg := some 150,
              is_advance := false, advance_amount := none, notes := "" } [])]
      = -150
    ∧ (-150 : ℚ) ≠ 0
    ∧ (fetchStats [] [] []
        [toPaymentRow (handleSubmit "2025-01-01"
            { worker_id := "A", kg_plucked := some (-1), rate_per_kg := some 150,
              is_advance := false, advance_amount := none, notes := "" } [])]
        [] []).expensesChange = 0
    ∧ specChange 0 (-150) = -100
    ∧ (0 : ℚ) ≠ -100 := by
  refine ⟨?_, by norm_num, ?_, ?_, by norm_num⟩
  · norm_num [monthlyExpensesOf, toPaymentRow, handleSubmit, numOr0, extraWorkTotal]
  · norm_num [fetchStats, changeGuard, monthlyExpensesOf, toPaymentRow,
      handleSubmit, numOr0, extraWorkTotal]
  · norm_num [specChange]

/-- C7 (amended): each percentage-change figure is 0 when its prior base is
zero — never infinite or undefined; `revenueChange`, `expensesChange` and
`harvestChange` are also 0 whenever the prior base is negative and equal the
relative difference only for a strictly positive base, while `profitChange`
is 0 exactly at a zero prior profit and otherwise divides by the absolute
value of the prior profit. -/
theorem percentage_change_guards (currentSales lastSales : List SaleRow)
    (currentPayments lastPayments : List PaymentRow)
    (todaysData yesterdaysData : List HarvestRow) :
    (monthlyRevenueOf lastSales ≤ 0 →
      (fetchStats currentSales lastSales currentPayments lastPayments
        todaysData yesterdaysData).revenueChange = 0)
    ∧ (0 < monthlyRevenueOf lastSales →
      (fetchStats currentSales lastSales currentPayments lastPayments
        todaysData yesterdaysData).revenueChange
        = ((monthlyRevenueOf currentSales - monthlyRevenueOf lastSales)
            / monthlyRevenueOf lastSales) * 100)
    ∧ (monthlyExpensesOf lastPayments ≤ 0 →
      (fetchStats currentSales lastSales currentPayments lastPayments
        todaysData yesterdaysData).expensesChange = 0)
    ∧ (0 < monthlyExpensesOf lastPayments →
      (fetchStats currentSales lastSales currentPayments lastPayments
        todaysData yesterdaysData).expensesChange
        = ((monthlyExpensesOf currentPayments - monthlyExpensesOf lastPayments)
            / monthlyExpensesOf lastPayments) * 100)
    ∧ (harvestOf yesterdaysData ≤ 0 →
      (fetchStats currentSales lastSales currentPayments lastPayments
        todaysData yesterdaysData).harvestChange = 0)
    ∧ (0 < harvestOf yesterdaysData →
      (fetchStats currentSales lastSales currentPayments lastPayments
        todaysData yesterdaysData).harvestChange
        = ((harvestOf todaysData - harvestOf yesterdaysData)
            / harvestOf yesterdaysData) * 100)
    ∧ (monthlyRevenueOf lastSales - monthlyExpensesOf lastPayments = 0 →
      (fetchStats currentSales lastSales currentPayments lastPayments
        todaysData yesterdaysData).profitChange = 0)
    ∧ (monthlyRevenueOf lastSales - monthlyExpensesOf lastPayments ≠ 0 →
      (fetchStats currentSales lastSales currentPayments lastPayments
        todaysData yesterdaysData).profitChange
        = (((monthlyRevenueOf currentSales - monthlyExpensesOf currentPayments)
            - (monthlyRevenueOf lastSales - monthlyExpensesOf lastPayments))
            / |monthlyRevenueOf lastSales - monthlyExpensesOf lastPayments|)
          * 100) := by
  refine ⟨fun h => ?_, fun h => ?_, fun h => ?_, fun h => ?_, fun h => ?_,
    fun h => ?_, fun h => ?_, fun h => ?_⟩
  · simp [fetchStats, changeGuard, not_lt.mpr h]
  · simp [fetchStats, changeGuard, h]
  · simp [fetchStats, changeGuard, not_lt.mpr h]
  · simp [fetchStats, changeGuard, h]
  · simp [fetchStats, changeGuard, not_lt.mpr h]
  · simp [fetchStats, changeGuard, h]
  · simp [fetchStats, profitChangeGuard, h]
  · simp [fetchStats, profitChangeGuard, h]

/-- Witness for the amended C7: with no rows in either period every change
figure is 0. -/
theorem percentage_change_guards_witness :
    (fetchStats [] [] [] [] [] []).revenueChange = 0 :=
  (percentage_change_guards [] [] [] [] [] []).1 (by norm_num [monthlyRevenueOf])
